import Mathlib

/-!
Shallow embedding of the sales-dashboard application (src/app.py).

The program keeps a fixed in-memory table `df` of monthly sales for three
categories, a Dash callback `update_dashboard` that maps the selected
category to a bar figure, a line figure and a formatted total string, and a
callback `export_csv` that serializes the table to the fixed file
`sales_data.csv`.

Cells of the pandas DataFrame are modelled by `Val` (the month column holds
strings, the category columns hold integers); the DataFrame itself by
`Table`, a list of named columns in declaration order.  Dash's `no_update`
sentinel is modelled by `Upd.noUpdate`; Python exceptions inside the `try`
blocks by `Except String`.
-/

/-- A cell of the DataFrame: either a string (months) or an integer (sales). -/
inductive Val where
  | str : String → Val
  | int : Int → Val
deriving DecidableEq, Repr

/-- A DataFrame: named columns in order, each a list of cells. -/
structure Table where
  cols : List (String × List Val)
deriving DecidableEq, Repr

/-- `df.columns` of pandas: the column names in order. -/
def Table.columns (t : Table) : List String := t.cols.map Prod.fst

/-- `df[c]`: the cells of column `c` (empty if absent; the callers below
use it only after a membership check). -/
def Table.getCol (t : Table) (c : String) : List Val :=
  match t.cols.find? (fun p => p.1 = c) with
  | some p => p.2
  | none => []

/-- The literal table built at process start from the `data` dict of
src/app.py, lines 45-53. -/
def df : Table :=
  ⟨[("month", [.str "Jan", .str "Feb", .str "Mar", .str "Apr", .str "May", .str "Jun"]),
    ("Electronics", [.int 15000, .int 18000, .int 22000, .int 19000, .int 24000, .int 21000]),
    ("Clothing", [.int 8000, .int 9500, .int 11000, .int 10500, .int 12000, .int 13000]),
    ("Food", [.int 12000, .int 13000, .int 14000, .int 14500, .int 15000, .int 16000])]⟩

/-- Dash's per-output result: either the `no_update` sentinel or a new value. -/
inductive Upd (α : Type) where
  | noUpdate : Upd α
  | update : α → Upd α
deriving DecidableEq, Repr

/-- The parts of a plotly figure that the program sets: the x and y series
and the layout options passed to `px.bar` / `px.line` / `update_layout`. -/
structure Figure where
  x : List Val
  y : List Val
  title : String
  colorField : Option String
  textField : Option String
  markers : Bool
  showlegend : Bool
  yaxisTitle : String
  template : String
deriving DecidableEq, Repr

/-- `px.bar(df, x="month", y=cat, title=..., color="month", text=cat)`
followed by `update_layout(showlegend=False, yaxis_title="Sales ($)",
template="plotly_white")`, src/app.py lines 201-213. -/
def mkBarFig (t : Table) (cat : String) : Figure :=
  { x := t.getCol "month"
    y := t.getCol cat
    title := "Monthly Sales - " ++ cat
    colorField := some "month"
    textField := some cat
    markers := false
    showlegend := false
    yaxisTitle := "Sales ($)"
    template := "plotly_white" }

/-- `px.line(df, x="month", y=cat, markers=True, title=...)` followed by
`update_layout(yaxis_title="Sales ($)", template="plotly_white")`,
src/app.py lines 216-226. -/
def mkLineFig (t : Table) (cat : String) : Figure :=
  { x := t.getCol "month"
    y := t.getCol cat
    title := "Sales Trend - " ++ cat
    colorField := none
    textField := none
    markers := true
    showlegend := true
    yaxisTitle := "Sales ($)"
    template := "plotly_white" }

/-- Python `+` on two cells: integers add, strings concatenate, a mixed pair
raises a TypeError. -/
def vadd : Val → Val → Except String Val
  | .int a, .int b => .ok (.int (a + b))
  | .str a, .str b => .ok (.str (a ++ b))
  | _, _ => .error "unsupported operand types for +"

/-- `df[cat].sum()` of pandas: fold the column with Python `+`
(an integer column sums, the string month column concatenates). -/
def pdSum : List Val → Except String Val
  | [] => .ok (.int 0)
  | v :: vs => vs.foldlM vadd v

/-- Insert a comma after every third character; applied to the reversed
digit string this realizes thousands grouping. -/
def commaChunks : List Char → List Char
  | a :: b :: c :: d :: rest => a :: b :: c :: ',' :: commaChunks (d :: rest)
  | l => l

/-- Decimal digits of `n` with thousands separators, as in Python
format `,.0f` on a non-negative integer. -/
def commaFmt (n : Nat) : String :=
  ⟨(commaChunks (Nat.toDigits 10 n).reverse).reverse⟩

/-- Python format `,.0f` on an integer. -/
def intCommaFmt (i : Int) : String :=
  if i < 0 then "-" ++ commaFmt i.natAbs else commaFmt i.natAbs

/-- The f-string `f"${total_sales:,.0f}"` of src/app.py line 230: succeeds
on an integer, raises a ValueError on a string cell. -/
def formatCurrency : Val → Except String String
  | .int n => .ok ("$" ++ intCommaFmt n)
  | .str _ => .error "Unknown format code f for object of type str"

/-- The body of the `try` block of `update_dashboard` after validation:
build both figures, sum the selected column and format it, src/app.py
lines 200-232.  An exception anywhere surfaces as `.error`. -/
def deriveView (t : Table) (cat : String) : Except String (Figure × Figure × String) := do
  let bar_fig := mkBarFig t cat
  let line_fig := mkLineFig t cat
  let total_sales ← pdSum (t.getCol cat)
  let total_text ← formatCurrency total_sales
  pure (bar_fig, line_fig, total_text)

/-- The callback `update_dashboard` of src/app.py lines 190-237: validate
the selection against `df.columns`, then either return the two figures and
the total text, the invalid-category warning, or the generic error message
of the `except` handler. -/
def update_dashboard (t : Table) (selected_category : String) :
    Upd Figure × Upd Figure × String :=
  if selected_category ∈ t.columns then
    match deriveView t selected_category with
    | .ok (bar_fig, line_fig, total_text) => (.update bar_fig, .update line_fig, total_text)
    | .error e => (.noUpdate, .noUpdate, "An error occurred while updating: " ++ e)
  else
    (.noUpdate, .noUpdate, "⚠️ Invalid category selected.")

/-- Render one cell for CSV output, as pandas `to_csv` does: strings
verbatim, integers in plain decimal, no quoting. -/
def csvCell : Val → String
  | .str s => s
  | .int n => toString n

/-- Number of rows of the table (length of the first column). -/
def Table.nRows (t : Table) : Nat :=
  match t.cols with
  | [] => 0
  | c :: _ => c.2.length

/-- Row `i` of the table as a comma-separated line. -/
def csvRow (t : Table) (i : Nat) : String :=
  String.intercalate "," (t.cols.map (fun c => csvCell (c.2.getD i (.str ""))))

/-- `df.to_csv(filename, index=False)` content, src/app.py line 253: a
header line of the column names, then every row, comma-separated,
newline-terminated, no index column. -/
def to_csv (t : Table) : String :=
  String.intercalate "\n"
    (String.intercalate "," t.columns :: (List.range t.nRows).map (csvRow t)) ++ "\n"

/-- Split a character list at every occurrence of `sep`. -/
def splitOnChar (sep : Char) : List Char → List (List Char)
  | [] => [[]]
  | c :: cs =>
    if c = sep then [] :: splitOnChar sep cs
    else
      match splitOnChar sep cs with
      | [] => [[c]]
      | h :: t => (c :: h) :: t

/-- Value of a decimal digit string. -/
def digitsToNat (l : List Char) : Nat :=
  l.foldl (fun a c => 10 * a + (c.toNat - 48)) 0

/-- Read one CSV cell back: an all-digit cell as an integer, anything else
as a string (the inference a CSV reader applies to this table). -/
def parseCell (s : List Char) : Val :=
  if s ≠ [] ∧ s.all Char.isDigit then .int (digitsToNat s) else .str (String.mk s)

/-- Parse CSV text back into a column-ordered table: first line gives the
column names, remaining non-empty lines the rows; fails if a row has the
wrong width. -/
def csvParse (s : String) : Option Table :=
  match (splitOnChar '\n' s.data).filter (fun l => l ≠ []) with
  | [] => none
  | header :: rows =>
    let names := splitOnChar ',' header
    let cells := rows.map (splitOnChar ',')
    if cells.all (fun r => r.length = names.length) then
      some ⟨names.enum.map
        (fun p => (String.mk p.2, cells.map (fun r => parseCell (r.getD p.1 []))))⟩
    else
      none

/-- The local file system, as a map from (relative) filename to content. -/
def FileSys : Type := String → Option String

/-- Write `content` to `name`, overwriting any existing file. -/
def fsWrite (fs : FileSys) (name content : String) : FileSys :=
  fun n => if n = name then some content else fs n

/-- The callback `export_csv` of src/app.py lines 246-256 on the success
path: write `to_csv` of the table to the fixed filename `sales_data.csv`
and return the confirmation message. -/
def export_csv_fs (fs : FileSys) (t : Table) : FileSys × String :=
  (fsWrite fs "sales_data.csv" (to_csv t), "Data exported successfully as sales_data.csv")

/-- The callback `export_csv` with the write's outcome supplied by an
oracle, so that the `except` branch (src/app.py lines 255-256) is
representable: an I/O failure `e` yields the failure message embedding `e`;
no exception propagates. -/
def export_csv (write : String → String → Except String Unit) (t : Table) : String :=
  match write "sales_data.csv" (to_csv t) with
  | .ok _ => "Data exported successfully as sales_data.csv"
  | .error e => "Failed to export data: " ++ e

/-- Process state visible to a callback: the shared table and the file
system.  `update_dashboard` touches neither. -/
structure World where
  table : Table
  fs : FileSys

/-- Running the dashboard callback against the process state: it reads the
table and performs no write, so the state is returned unchanged. -/
def run_update_dashboard (w : World) (cat : String) :
    World × (Upd Figure × Upd Figure × String) :=
  (w, update_dashboard w.table cat)

/-- The dropdown options of src/app.py lines 94-98: every column except
`month`. -/
def dropdownOptions (t : Table) : List String :=
  t.columns.filter (fun c => c ≠ "month")

/-- The dropdown's default `value="Electronics"`, src/app.py line 99. -/
def defaultCategory : String := "Electronics"

/-- The dropdown's `clearable=False`, src/app.py line 100. -/
def dropdownClearable : Bool := false

/-- The outputs rendered at startup: Dash fires the callback once with the
default dropdown value before any user interaction. -/
def startupOutputs : Upd Figure × Upd Figure × String :=
  update_dashboard df defaultCategory

/-- The integer sum of a column, used to state the total-formatting claims
independently of `pdSum`. -/
def colIntSum (t : Table) (c : String) : Int :=
  (t.getCol c).foldl (fun a v => match v with | .int n => a + n | .str _ => a) 0

/-- Extract the figure of a per-output result, if any. -/
def updFig : Upd Figure → Option Figure
  | .noUpdate => none
  | .update f => some f

/-- The (month, value) pairs a figure displays. -/
def figSeries (f : Figure) : List (Val × Val) := f.x.zip f.y

deriving instance DecidableEq for Except

theorem strLengthAppend (a b : String) : (a ++ b).length = a.length + b.length := by
  cases a
  cases b
  exact List.length_append _ _

/-- Claim C1: for every valid category c in {Electronics, Clothing, Food},
the total slot returned by `update_dashboard` equals the integer sum of the
table's column c formatted with a dollar prefix, thousands separators and
zero decimal places; in particular the Electronics total is "$119,000". -/
theorem update_dashboard_total_formats_column_sum :
    (∀ c, c ∈ ["Electronics", "Clothing", "Food"] →
      (update_dashboard df c).2.2 = "$" ++ intCommaFmt (colIntSum df c)) ∧
    (update_dashboard df "Electronics").2.2 = "$119,000" := by
  constructor
  · intro c hc
    simp only [List.mem_cons, List.not_mem_nil, or_false] at hc
    rcases hc with rfl | rfl | rfl <;> decide
  · decide

theorem update_dashboard_total_formats_column_sum_witness :
    (update_dashboard df "Electronics").2.2 = "$" ++ intCommaFmt (colIntSum df "Electronics") :=
  update_dashboard_total_formats_column_sum.1 "Electronics" (by decide)

/-- Claim C2, counterexample: "month" is not one of Electronics, Clothing,
Food, yet `update_dashboard` does not return the invalid-selection warning
for it — the validation tests membership in the full column set, which
contains "month", so the callback proceeds and fails in the total formatting,
surfacing the generic error message instead. -/
theorem update_dashboard_month_not_invalid_warning :
    "month" ∉ ["Electronics", "Clothing", "Food"] ∧
    (update_dashboard df "month").2.2 ≠ "⚠️ Invalid category selected." ∧
    (update_dashboard df "month").2.2 =
      "An error occurred while updating: " ++ "Unknown format code f for object of type str" := by
  decide

/-- Claim C2, amended: for every selection value that is not a member of the
table's FULL column set (i.e. not one of month, Electronics, Clothing, Food),
`update_dashboard` returns the no-change signal for both chart outputs and
the invalid-selection warning for the total slot; the value "month", although
not a selectable category, instead passes validation and reaches the generic
failure path with both charts unchanged. -/
theorem update_dashboard_invalid_category :
    (∀ cat : String, cat ∉ df.columns →
      update_dashboard df cat = (.noUpdate, .noUpdate, "⚠️ Invalid category selected.")) ∧
    (update_dashboard df "month").1 = .noUpdate ∧
    (update_dashboard df "month").2.1 = .noUpdate ∧
    (update_dashboard df "month").2.2 =
      "An error occurred while updating: " ++ "Unknown format code f for object of type str" := by
  constructor
  · intro cat h
    simp [update_dashboard, h]
  · decide

theorem update_dashboard_invalid_category_witness :
    update_dashboard df "Bogus" = (.noUpdate, .noUpdate, "⚠️ Invalid category selected.") :=
  update_dashboard_invalid_category.1 "Bogus" (by decide)

/-- Claim C3: for every valid category c, the bar figure and the line figure
returned by `update_dashboard` both carry exactly the same (month, value)
pairs as the table's column c, in the table's month order Jan..Jun, and there
are 6 such pairs. -/
theorem update_dashboard_chart_series :
    ∀ c, c ∈ ["Electronics", "Clothing", "Food"] →
      (updFig (update_dashboard df c).1).map figSeries =
        some ((df.getCol "month").zip (df.getCol c)) ∧
      (updFig (update_dashboard df c).2.1).map figSeries =
        some ((df.getCol "month").zip (df.getCol c)) ∧
      ((df.getCol "month").zip (df.getCol c)).length = 6 := by
  intro c hc
  simp only [List.mem_cons, List.not_mem_nil, or_false] at hc
  rcases hc with rfl | rfl | rfl <;> decide

theorem update_dashboard_chart_series_witness :
    (updFig (update_dashboard df "Food").1).map figSeries =
      some ((df.getCol "month").zip (df.getCol "Food")) :=
  (update_dashboard_chart_series "Food" (by decide)).1

/-- Claim C4: whenever chart derivation fails with an unexpected error e,
`update_dashboard` returns the no-change signal for both chart outputs and a
message embedding e in the total slot, and that message can never coincide
with the invalid-selection warning (its prefix is distinct); the callback is
a total function, so no exception escapes. -/
theorem update_dashboard_generic_error :
    (∀ (t : Table) (cat e : String), cat ∈ t.columns → deriveView t cat = .error e →
      update_dashboard t cat =
        (.noUpdate, .noUpdate, "An error occurred while updating: " ++ e)) ∧
    (∀ e : String, "An error occurred while updating: " ++ e ≠ "⚠️ Invalid category selected.") := by
  constructor
  · intro t cat e h1 h2
    simp [update_dashboard, h1, h2]
  · intro e h
    have h2 := congrArg String.length h
    rw [strLengthAppend] at h2
    have ha : ("An error occurred while updating: " : String).length = 34 := by decide
    have hb : ("⚠️ Invalid category selected." : String).length = 29 := by decide
    rw [ha, hb] at h2
    omega

theorem update_dashboard_generic_error_witness :
    update_dashboard df "month" =
      (.noUpdate, .noUpdate,
        "An error occurred while updating: " ++ "Unknown format code f for object of type str") ∧
    "An error occurred while updating: " ++ "x" ≠ "⚠️ Invalid category selected." :=
  ⟨update_dashboard_generic_error.1 df "month" "Unknown format code f for object of type str"
      (by decide) (by decide),
   update_dashboard_generic_error.2 "x"⟩

/-- Claim C5: the CSV serialization of the table round-trips exactly back to
the table; its first line is the header `month,Electronics,Clothing,Food`,
it consists of the header plus exactly 6 data rows in table order, and it
contains no quote character (numeric fields are unquoted, and there is no
index column, as the round-trip equality shows). -/
theorem to_csv_round_trips :
    csvParse (to_csv df) = some df ∧
    (splitOnChar '\n' (to_csv df).data).getD 0 [] =
      ("month,Electronics,Clothing,Food" : String).data ∧
    ((splitOnChar '\n' (to_csv df).data).filter (fun l => l ≠ [])).length = 1 + 6 ∧
    ((to_csv df).data.all (fun c => c ≠ Char.ofNat 34)) = true := by
  decide

/-- Claim C6: the serialized output is a deterministic function of the
table: exporting twice in a row leaves the same byte content in
`sales_data.csv` after each of the two calls (each call performing its own
write into the file system). -/
theorem export_csv_deterministic_output :
    ∀ (fs : FileSys) (t : Table),
      (export_csv_fs fs t).1 "sales_data.csv" = some (to_csv t) ∧
      (export_csv_fs (export_csv_fs fs t).1 t).1 "sales_data.csv" =
        (export_csv_fs fs t).1 "sales_data.csv" := by
  intro fs t
  constructor <;> simp [export_csv_fs, fsWrite]

/-- Claim C7: for every I/O failure e raised by the CSV write, `export_csv`
returns the failure string embedding e; being a total function, it neither
propagates the exception nor crashes. -/
theorem export_csv_failure_message :
    ∀ (write : String → String → Except String Unit) (t : Table) (e : String),
      write "sales_data.csv" (to_csv t) = .error e →
      export_csv write t = "Failed to export data: " ++ e := by
  intro write t e h
  simp [export_csv, h]

theorem export_csv_failure_message_witness :
    export_csv (fun _ _ => Except.error "disk full") df = "Failed to export data: disk full" :=
  export_csv_failure_message (fun _ _ => Except.error "disk full") df "disk full" rfl

/-- Claim C8: the dashboard callback is pure — running it leaves the process
state (table and file system) unchanged, and any two invocations with the
same table and the same category value return equal outputs for all three
slots. -/
theorem update_dashboard_pure :
    (∀ (w : World) (cat : String), (run_update_dashboard w cat).1 = w) ∧
    (∀ (w1 w2 : World) (c1 c2 : String), w1.table = w2.table → c1 = c2 →
      (run_update_dashboard w1 c1).2 = (run_update_dashboard w2 c2).2) := by
  refine ⟨fun w cat => rfl, ?_⟩
  intro w1 w2 c1 c2 ht hc
  simp [run_update_dashboard, ht, hc]

theorem update_dashboard_pure_witness :
    (run_update_dashboard ⟨df, fun _ => none⟩ "Electronics").1 = ⟨df, fun _ => none⟩ ∧
    (run_update_dashboard ⟨df, fun _ => none⟩ "Electronics").2 =
      (run_update_dashboard ⟨df, fun _ => some "x"⟩ "Electronics").2 :=
  ⟨update_dashboard_pure.1 ⟨df, fun _ => none⟩ "Electronics",
   update_dashboard_pure.2 ⟨df, fun _ => none⟩ ⟨df, fun _ => some "x"⟩
     "Electronics" "Electronics" rfl rfl⟩

/-- Claim C9: at startup the dropdown offers exactly the non-month columns
Electronics, Clothing, Food, defaults to Electronics, cannot be cleared, and
the total display equals the total slot of `update_dashboard` applied to
Electronics (the callback fires once at startup with the default value). -/
theorem startup_state_spec :
    dropdownOptions df = ["Electronics", "Clothing", "Food"] ∧
    defaultCategory = "Electronics" ∧
    dropdownClearable = false ∧
    startupOutputs.2.2 = (update_dashboard df "Electronics").2.2 := by
  exact ⟨by decide, rfl, rfl, rfl⟩

/-- Claim C10: every successful export writes the serialized table to the
fixed relative filename `sales_data.csv`, touches no other file, and returns
exactly the confirmation string naming that file. -/
theorem export_csv_fixed_filename :
    ∀ (fs : FileSys) (t : Table),
      (export_csv_fs fs t).2 = "Data exported successfully as sales_data.csv" ∧
      (export_csv_fs fs t).1 "sales_data.csv" = some (to_csv t) ∧
      ∀ n, n ≠ "sales_data.csv" → (export_csv_fs fs t).1 n = fs n := by
  intro fs t
  refine ⟨rfl, by simp [export_csv_fs, fsWrite], ?_⟩
  intro n hn
  simp [export_csv_fs, fsWrite, hn]

theorem export_csv_fixed_filename_witness :
    (export_csv_fs (fun _ => none) df).2 = "Data exported successfully as sales_data.csv" ∧
    (export_csv_fs (fun _ => none) df).1 "other.csv" = none :=
  ⟨(export_csv_fixed_filename (fun _ => none) df).1,
   (export_csv_fixed_filename (fun _ => none) df).2.2 "other.csv" (by decide)⟩
